/-
Verification of the PPU core (src/ppu.cpp) of the 2014-alphanes NES emulator.

The C++ `Ppu` class is shallowly embedded as a Lean structure `Ppu` holding
all mutable PPU state plus the collaborator-owned memories the PPU reads
through `mmap` (pattern banks, nametables) and the CPU's NMI line.  Machine
bytes are Nat with explicit masking (`% 256`, `% 65536`, ...) exactly where
the C++ types truncate.  `scanline` and `VBlankState` are `Int`, as in the
source (signed ints).

The register file of the C++ class lives in `nes.h`, which is not part of
the sources provided; those bit layouts are modelled from the spec (see the
doc comments marked "Modelled from the spec").  Everything else is a direct
transcription of src/ppu.cpp.
-/
import Mathlib

set_option maxRecDepth 10000

/-- A sprite slot of the secondary/tertiary OAM arrays
(`struct { sprindex, y, index, attr, x; pattern }`). -/
structure SpriteEntry where
  y : Nat
  index : Nat
  attr : Nat
  x : Nat
  sprindex : Nat
  pattern : Nat
deriving DecidableEq

/-- Television variant selecting the tick routine (`mode_`). -/
inductive PpuMode where
  | NTSC
  | PAL
deriving DecidableEq

/-- The PPU state: the mutable members of the C++ `Ppu` class, the
collaborator memories reached through `mmap`, the CPU NMI line the PPU
drives, and the host frame buffer (which stores the 6-bit palette index
the PPU hands to the host, the host's RGB conversion being external).

Modelled from the spec: the register bank is kept as the raw bytes
`sysctrl`/`dispctrl` (ports 0/1), the three status flags (port 2, upper
3 bits), and `OAMaddr` (port 3); the `scroll` and `vaddr` latches are
15-bit raw words laid out coarse-X (5) | coarse-Y (5) | nametable-H (1)
| nametable-V (1) | fine-Y (3) from bit 0 up, with the separate 3-bit
`xfine`; these layouts come from §3 of the spec because `nes.h` (which
declares the bit-packed unions) is not among the provided sources. -/
structure Ppu where
  sysctrl : Nat
  dispctrl : Nat
  SPoverflow : Bool
  SP0hit : Bool
  InVBlank : Bool
  OAMaddr : Nat
  scroll : Nat
  vaddr : Nat
  xfine : Nat
  offset_toggle_ : Bool
  read_buffer : Nat
  open_bus_ : Nat
  open_bus_decay_timer : Nat
  VBlankState : Int
  OAM : Nat → Nat
  OAM2 : Nat → SpriteEntry
  OAM3 : Nat → SpriteEntry
  sprinpos : Nat
  sproutpos : Nat
  sprrenpos : Nat
  sprtmp : Nat
  scanline : Int
  x : Nat
  scanline_end : Nat
  cycle_counter : Nat
  even_odd_toggle : Bool
  cycles : Nat
  mode_ : PpuMode
  palette : Nat → Nat
  chr : Nat → Nat
  nta : Nat → Nat
  nmi : Bool
  frame_buffer : Nat → Nat
  pat_addr : Nat
  ioaddr : Nat
  tilepat : Nat
  tileattr : Nat
  bg_shift_pat : Nat
  bg_shift_attr : Nat

/-- Modelled from the spec: sysctrl bit 0-1, the base nametable index. -/
def Ppu.BaseNTA (s : Ppu) : Nat := s.sysctrl % 4

/-- Modelled from the spec: sysctrl bit 2, VRAM auto-increment (+32 when set). -/
def Ppu.Inc (s : Ppu) : Bool := s.sysctrl / 4 % 2 = 1

/-- Modelled from the spec: sysctrl bit 3, sprite pattern half. -/
def Ppu.SPaddr (s : Ppu) : Nat := s.sysctrl / 8 % 2

/-- Modelled from the spec: sysctrl bit 4, background pattern half. -/
def Ppu.BGaddr (s : Ppu) : Nat := s.sysctrl / 16 % 2

/-- Modelled from the spec: sysctrl bit 5, 8x16 sprite size. -/
def Ppu.SPsize (s : Ppu) : Bool := s.sysctrl / 32 % 2 = 1

/-- Modelled from the spec: sysctrl bit 7, NMI enable. -/
def Ppu.NMIenabled (s : Ppu) : Bool := s.sysctrl / 128 % 2 = 1

/-- Modelled from the spec: dispctrl bit 0, greyscale. -/
def Ppu.Grayscale (s : Ppu) : Bool := s.dispctrl % 2 = 1

/-- Modelled from the spec: dispctrl bit 1, show background in left 8 pixels. -/
def Ppu.ShowBG8 (s : Ppu) : Bool := s.dispctrl / 2 % 2 = 1

/-- Modelled from the spec: dispctrl bit 2, show sprites in left 8 pixels. -/
def Ppu.ShowSP8 (s : Ppu) : Bool := s.dispctrl / 4 % 2 = 1

/-- Modelled from the spec: dispctrl bit 3, show background. -/
def Ppu.ShowBG (s : Ppu) : Bool := s.dispctrl / 8 % 2 = 1

/-- Modelled from the spec: dispctrl bit 4, show sprites. -/
def Ppu.ShowSP (s : Ppu) : Bool := s.dispctrl / 16 % 2 = 1

/-- Modelled from the spec: dispctrl bits 3-4 as a 2-bit value (rendering on). -/
def Ppu.ShowBGSP (s : Ppu) : Nat := s.dispctrl / 8 % 4

/-- Modelled from the spec: dispctrl bits 5-7, colour emphasis. -/
def Ppu.EmpRGB (s : Ppu) : Nat := s.dispctrl / 32 % 8

/-- Modelled from the spec: the 2-bit byte-within-sprite part of `OAMaddr`. -/
def Ppu.OAMdata (s : Ppu) : Nat := s.OAMaddr % 4

/-- Modelled from the spec: the 6-bit sprite-number part of `OAMaddr`. -/
def Ppu.OAMindex (s : Ppu) : Nat := s.OAMaddr / 4 % 64

/-- The byte read back from the status port: the three flags in bits 5-7.
Modelled from the spec (status register upper 3 bits). -/
def Ppu.statusByte (s : Ppu) : Nat :=
  (if s.SPoverflow then 32 else 0) + (if s.SP0hit then 64 else 0) +
    (if s.InVBlank then 128 else 0)

/-- Overwrite the `w`-bit field of `v` starting at bit `lo` with `d`
(the generic bitfield assignment used by the packed scroll registers). -/
def setField (v lo w d : Nat) : Nat :=
  v % 2 ^ lo + 2 ^ lo * (d % 2 ^ w) + 2 ^ (lo + w) * (v / 2 ^ (lo + w))

/-- coarse-X of a raw scroll word (bits 0-4). -/
def rawXcoarse (v : Nat) : Nat := v % 32

/-- coarse-Y of a raw scroll word (bits 5-9). -/
def rawYcoarse (v : Nat) : Nat := v / 32 % 32

/-- 2-bit nametable index of a raw scroll word (bits 10-11). -/
def rawBasenta (v : Nat) : Nat := v / 1024 % 4

/-- horizontal nametable bit of a raw scroll word (bit 10). -/
def rawBasentaH (v : Nat) : Nat := v / 1024 % 2

/-- vertical nametable bit of a raw scroll word (bit 11). -/
def rawBasentaV (v : Nat) : Nat := v / 2048 % 2

/-- fine-Y of a raw scroll word (bits 12-14). -/
def rawYfine (v : Nat) : Nat := v / 4096 % 8

/-- `Ppu::mmap`, read side: the 14-bit video memory view.  Addresses
≥ 0x3F00 hit the 32-byte palette, with addresses divisible by 4 first
collapsed to their low nibble; addresses < 0x2000 hit the cartridge
pattern banks; the rest hit the mirrored nametables.  The result is
masked to a byte, the arrays being `uint8_t`. -/
def Ppu.mmapRead (s : Ppu) (i : Nat) : Nat :=
  let i := i &&& 0x3FFF
  if 0x3F00 ≤ i then
    let i := if i % 4 = 0 then i &&& 0x0F else i
    s.palette (i &&& 0x1F) % 256
  else if i < 0x2000 then s.chr i % 256
  else s.nta ((i >>> 10 &&& 3) * 0x400 + (i &&& 0x3FF)) % 256

/-- `Ppu::mmap`, write side: store a byte through the same mapping. -/
def Ppu.mmapWrite (s : Ppu) (i d : Nat) : Ppu :=
  let i := i &&& 0x3FFF
  if 0x3F00 ≤ i then
    let i := if i % 4 = 0 then i &&& 0x0F else i
    { s with palette := Function.update s.palette (i &&& 0x1F) (d % 256) }
  else if i < 0x2000 then { s with chr := Function.update s.chr i (d % 256) }
  else { s with nta := Function.update s.nta ((i >>> 10 &&& 3) * 0x400 + (i &&& 0x3FF)) (d % 256) }

/-- The `RefreshOpenBus` lambda of `Ppu::Read`/`Ppu::Write`: reload the
open-bus latch and rearm its decay timer. -/
def Ppu.RefreshOpenBus (s : Ppu) (v : Nat) : Ppu :=
  { s with open_bus_decay_timer := 77777, open_bus_ := v % 256 }

/-- `Ppu::Read`: a CPU read of the register at `address`, decoded on the
low 3 bits; returns the byte placed on the bus and the successor state. -/
def Ppu.Read (s : Ppu) (address : Nat) : Nat × Ppu :=
  let port := address % 8
  if port = 2 then
    let res := s.statusByte ||| (s.open_bus_ &&& 0x1F)
    let s := { s with InVBlank := false, offset_toggle_ := false }
    let s := if s.VBlankState ≠ -5 then { s with VBlankState := 0 } else s
    (res, s)
  else if port = 4 then
    let res := s.OAM s.OAMaddr % 256 &&& (if s.OAMdata = 2 then 0xE3 else 0xFF)
    (res, s.RefreshOpenBus res)
  else if port = 7 then
    let res := s.read_buffer
    let t := s.mmapRead s.vaddr
    let (res, s) :=
      if s.vaddr &&& 0x3F00 = 0x3F00 then
        ((s.open_bus_ &&& 0xC0) ||| (t &&& 0x3F),
          { s with read_buffer := s.mmapRead (s.vaddr &&& 0x2FFF) })
      else (res, { s with read_buffer := t })
    let s := s.RefreshOpenBus res
    (res, { s with vaddr := (s.vaddr + if s.Inc then 32 else 1) % 32768 })
  else (s.open_bus_, s)

/-- `Ppu::Write`: a CPU write of `data` to the register at `address`,
decoded on the low 3 bits. -/
def Ppu.Write (s : Ppu) (address data : Nat) : Ppu :=
  let data := data % 256
  let s := s.RefreshOpenBus data
  let port := address % 8
  if port = 0 then
    { s with sysctrl := data, scroll := setField s.scroll 10 2 data }
  else if port = 1 then { s with dispctrl := data }
  else if port = 3 then { s with OAMaddr := data }
  else if port = 4 then
    { s with OAM := Function.update s.OAM s.OAMaddr data,
             OAMaddr := (s.OAMaddr + 1) % 256 }
  else if port = 5 then
    if s.offset_toggle_ then
      { s with scroll := setField (setField s.scroll 12 3 (data &&& 7)) 5 5 (data >>> 3),
               offset_toggle_ := false }
    else
      { s with xfine := data % 8, scroll := setField s.scroll 0 5 (data >>> 3),
               offset_toggle_ := true }
  else if port = 6 then
    if s.offset_toggle_ then
      let sc := setField s.scroll 0 8 data
      { s with scroll := sc, vaddr := sc, offset_toggle_ := false }
    else
      { s with scroll := setField s.scroll 8 7 (data &&& 0x3F), offset_toggle_ := true }
  else if port = 7 then
    let s := s.mmapWrite s.vaddr data
    let s := s.RefreshOpenBus data
    { s with vaddr := (s.vaddr + if s.Inc then 32 else 1) % 32768 }
  else s

/-- First swap-mask stage of `Ppu::rendering_tick` case 7
(`p = (p&0xF00F) | ((p&0x0F00)>>4) | ((p&0x00F0)<<4)`). -/
def st1 (p : Nat) : Nat := (p &&& 0xF00F) ||| ((p &&& 0x0F00) >>> 4) ||| ((p &&& 0x00F0) <<< 4)

/-- Second swap-mask stage (`masks 0xC3C3/0x3030/0x0C0C`). -/
def st2 (p : Nat) : Nat := (p &&& 0xC3C3) ||| ((p &&& 0x3030) >>> 2) ||| ((p &&& 0x0C0C) <<< 2)

/-- Third swap-mask stage (`masks 0x9999/0x4444/0x2222`). -/
def st3 (p : Nat) : Nat := (p &&& 0x9999) ||| ((p &&& 0x4444) >>> 1) ||| ((p &&& 0x2222) <<< 1)

/-- The three swap-mask stages of `Ppu::rendering_tick` case 7, which
interleave the bits of the two pattern bytes held in a 16-bit word. -/
def interleaveStages (p : Nat) : Nat := st3 (st2 (st1 p))

/-- Spread the 8 bits of the low pattern byte onto the even bit
positions: bit `k` goes to bit `2k`. -/
def spreadLow (lo : Nat) : Nat :=
  ((lo >>> 0 &&& 1) <<< 0) ||| ((lo >>> 1 &&& 1) <<< 2) ||| ((lo >>> 2 &&& 1) <<< 4) |||
  ((lo >>> 3 &&& 1) <<< 6) ||| ((lo >>> 4 &&& 1) <<< 8) ||| ((lo >>> 5 &&& 1) <<< 10) |||
  ((lo >>> 6 &&& 1) <<< 12) ||| ((lo >>> 7 &&& 1) <<< 14)

/-- Spread the 8 bits of the high pattern byte onto the odd bit
positions: bit `k` goes to bit `2k+1`. -/
def spreadHigh (hi : Nat) : Nat :=
  ((hi >>> 0 &&& 1) <<< 1) ||| ((hi >>> 1 &&& 1) <<< 3) ||| ((hi >>> 2 &&& 1) <<< 5) |||
  ((hi >>> 3 &&& 1) <<< 7) ||| ((hi >>> 4 &&& 1) <<< 9) ||| ((hi >>> 5 &&& 1) <<< 11) |||
  ((hi >>> 6 &&& 1) <<< 13) ||| ((hi >>> 7 &&& 1) <<< 15)

/-- The specified bit layout of an interleaved tile: bit `2k` holds bit `k`
of the low pattern byte and bit `2k+1` holds bit `k` of the high byte
(b7,a7,b6,a6,... from the top). -/
def interleaveBits (lo hi : Nat) : Nat := spreadLow lo ||| spreadHigh hi

/-- De-interleave: collect the even-position bits of a 16-bit word. -/
def evenBits (p : Nat) : Nat :=
  ((p >>> 0 &&& 1) <<< 0) ||| ((p >>> 2 &&& 1) <<< 1) ||| ((p >>> 4 &&& 1) <<< 2) |||
  ((p >>> 6 &&& 1) <<< 3) ||| ((p >>> 8 &&& 1) <<< 4) ||| ((p >>> 10 &&& 1) <<< 5) |||
  ((p >>> 12 &&& 1) <<< 6) ||| ((p >>> 14 &&& 1) <<< 7)

/-- De-interleave: collect the odd-position bits of a 16-bit word. -/
def oddBits (p : Nat) : Nat :=
  ((p >>> 1 &&& 1) <<< 0) ||| ((p >>> 3 &&& 1) <<< 1) ||| ((p >>> 5 &&& 1) <<< 2) |||
  ((p >>> 7 &&& 1) <<< 3) ||| ((p >>> 9 &&& 1) <<< 4) ||| ((p >>> 11 &&& 1) <<< 5) |||
  ((p >>> 13 &&& 1) <<< 6) ||| ((p >>> 15 &&& 1) <<< 7)

instance : Std.Associative (fun (a b : Nat) => a ||| b) := ⟨Nat.lor_assoc⟩

instance : Std.Commutative (fun (a b : Nat) => a ||| b) := ⟨Nat.lor_comm⟩

/-- `tile_decode_mode` of `Ppu::rendering_tick`: true when x is 0..255 or
320..335 (`0x10FFFF & (1u << (x>>4))`). -/
def tileDecodeMode (x : Nat) : Bool := 0x10FFFF &&& (1 <<< (x >>> 4)) ≠ 0

/-- `Ppu::rendering_tick` case 0 of the background-fetch switch: point to
the nametable, reset sprite state at x=0 and reload scroll at x=304/256. -/
def Ppu.bgCase0 (s : Ppu) : Ppu :=
  let s := { s with ioaddr := 0x2000 + (s.vaddr &&& 0xFFF) }
  let s :=
    if s.x = 0 then
      { s with sprinpos := 0, sproutpos := 0,
               OAMaddr := if s.ShowSP then 0 else s.OAMaddr }
    else s
  if s.ShowBG then
    let s := if s.x = 304 ∧ s.scanline = -1 then { s with vaddr := s.scroll } else s
    if s.x = 256 then
      { s with vaddr := setField (setField s.vaddr 0 5 (rawXcoarse s.scroll)) 10 1
                 (rawBasentaH s.scroll),
               sprrenpos := 0 }
    else s
  else s

/-- `Ppu::rendering_tick` case 1: nametable access, shift-register reload,
and the odd-frame scanline shortening at x=337 of the NTSC pre-render line. -/
def Ppu.bgCase1 (s : Ppu) : Ppu :=
  let s :=
    if s.x = 337 ∧ s.scanline = -1 ∧ s.even_odd_toggle ∧ s.ShowBG ∧ s.mode_ = PpuMode.NTSC
    then { s with scanline_end := 340 } else s
  let s := { s with pat_addr := 0x1000 * s.BGaddr + 16 * s.mmapRead s.ioaddr + rawYfine s.vaddr }
  if tileDecodeMode s.x then
    { s with bg_shift_pat := ((s.bg_shift_pat >>> 16) + 0x10000 * s.tilepat) % 4294967296,
             bg_shift_attr := ((s.bg_shift_attr >>> 16) + 0x55550000 * s.tileattr) % 4294967296 }
  else s

/-- `Ppu::rendering_tick` case 2: point to the attribute table; without
tile decoding the case falls through into case 0 (nametable pointer). -/
def Ppu.bgCase2 (s : Ppu) : Ppu :=
  let s := { s with
    ioaddr := 0x23C0 + 0x400 * rawBasenta s.vaddr + 8 * (rawYcoarse s.vaddr / 4)
                + rawXcoarse s.vaddr / 4 }
  if tileDecodeMode s.x then s else s.bgCase0

/-- `Ppu::rendering_tick` case 3: attribute fetch plus coarse scroll
advance, or (during sprite fetch) sprite pattern address selection. -/
def Ppu.bgCase3 (s : Ppu) : Ppu :=
  if tileDecodeMode s.x then
    let s := { s with
      tileattr := (s.mmapRead s.ioaddr >>>
          ((rawXcoarse s.vaddr &&& 2) + 2 * (rawYcoarse s.vaddr &&& 2))) &&& 3 }
    let xc := (rawXcoarse s.vaddr + 1) % 32
    let s := { s with vaddr := setField s.vaddr 0 5 xc }
    let s := if xc = 0 then { s with vaddr := setField s.vaddr 10 1 (1 - rawBasentaH s.vaddr) }
             else s
    if s.x = 251 then
      let yf := (rawYfine s.vaddr + 1) % 8
      let s := { s with vaddr := setField s.vaddr 12 3 yf }
      if yf = 0 then
        let yc := (rawYcoarse s.vaddr + 1) % 32
        let s := { s with vaddr := setField s.vaddr 5 5 yc }
        if yc = 30 then
          { s with vaddr := setField (setField s.vaddr 5 5 0) 11 1 (1 - rawBasentaV s.vaddr) }
        else s
      else s
    else s
  else if s.sprrenpos < s.sproutpos then
    let o := s.OAM2 (s.sprrenpos &&& 7)
    let s := { s with OAM3 := Function.update s.OAM3 (s.sprrenpos &&& 7) o }
    let y : Nat := ((s.scanline - (o.y : Int)) % 4294967296).toNat
    let y := if o.attr &&& 0x80 ≠ 0 then y ^^^ (if s.SPsize then 15 else 7) else y
    { s with pat_addr := 0x1000 * (if s.SPsize then o.index &&& 1 else s.SPaddr)
               + 0x10 * (if s.SPsize then o.index &&& 0xFE else o.index &&& 0xFF)
               + ((y &&& 7) + (y &&& 8) * 2) }
  else s

/-- `Ppu::rendering_tick` case 5: fetch the low pattern byte. -/
def Ppu.bgCase5 (s : Ppu) : Ppu := { s with tilepat := s.mmapRead s.pat_addr }

/-- `Ppu::rendering_tick` case 7: fetch the high pattern byte, interleave
the two bytes, and during sprite fetch store the result in OAM3. -/
def Ppu.bgCase7 (s : Ppu) : Ppu :=
  let p := interleaveStages (s.tilepat ||| (s.mmapRead (s.pat_addr ||| 8) <<< 8))
  let s := { s with tilepat := p % 65536 }
  if ¬ tileDecodeMode s.x ∧ s.sprrenpos < s.sproutpos then
    let e := { s.OAM3 (s.sprrenpos &&& 7) with pattern := s.tilepat }
    { s with OAM3 := Function.update s.OAM3 (s.sprrenpos &&& 7) e,
             sprrenpos := s.sprrenpos + 1 }
  else s

/-- The first (x mod 8) switch of `Ppu::rendering_tick`. -/
def Ppu.bgFetchPhase (s : Ppu) : Ppu :=
  match s.x % 8 with
  | 0 => s.bgCase0
  | 1 => s.bgCase1
  | 2 => s.bgCase2
  | 3 => s.bgCase3
  | 5 => s.bgCase5
  | 7 => s.bgCase7
  | _ => s

/-- The second switch of `Ppu::rendering_tick`: the round-robin sprite
evaluation walk of primary OAM on odd x in [64,255]. -/
def Ppu.sprEvalPhase (s : Ppu) : Ppu :=
  if 64 ≤ s.x ∧ s.x < 256 ∧ s.x % 2 = 1 then
    let a := s.OAMaddr
    let s := { s with OAMaddr := (a + 1) % 256 }
    match a % 4 with
    | 0 =>
      if 64 ≤ s.sprinpos then { s with OAMaddr := 0 }
      else
        let s := { s with sprinpos := s.sprinpos + 1 }
        let s :=
          if s.sproutpos < 8 then
            let e := { s.OAM2 s.sproutpos with y := s.sprtmp % 256, sprindex := s.OAMindex }
            { s with OAM2 := Function.update s.OAM2 s.sproutpos e }
          else s
        if ¬ ((s.sprtmp : Int) ≤ s.scanline ∧
              s.scanline < (s.sprtmp : Int) + (if s.SPsize then 16 else 8)) then
          { s with OAMaddr := if s.sprinpos ≠ 2 then (s.OAMaddr + 3) % 256 else 8 }
        else s
    | 1 =>
      if s.sproutpos < 8 then
        let e := { s.OAM2 s.sproutpos with index := s.sprtmp % 256 }
        { s with OAM2 := Function.update s.OAM2 s.sproutpos e }
      else s
    | 2 =>
      if s.sproutpos < 8 then
        let e := { s.OAM2 s.sproutpos with attr := s.sprtmp % 256 }
        { s with OAM2 := Function.update s.OAM2 s.sproutpos e }
      else s
    | 3 =>
      let s :=
        if s.sproutpos < 8 then
          let e := { s.OAM2 s.sproutpos with x := s.sprtmp % 256 }
          { s with OAM2 := Function.update s.OAM2 s.sproutpos e }
        else s
      let s := if s.sproutpos < 8 then { s with sproutpos := s.sproutpos + 1 }
               else { s with SPoverflow := true }
      if s.sprinpos = 2 then { s with OAMaddr := 8 } else s
    | _ => s
  else { s with sprtmp := s.OAM s.OAMaddr % 256 }

/-- `Ppu::rendering_tick`: the background-fetch switch followed by the
sprite-evaluation switch. -/
def Ppu.rendering_tick (s : Ppu) : Ppu := s.bgFetchPhase.sprEvalPhase

/-- Is sprite `e` horizontally in range at column `x`?  In the source the
unsigned difference `x - e.x` is compared with 8, so negative differences
(huge unsigned values) fall out of range. -/
def sprInRange (e : SpriteEntry) (x : Nat) : Prop := e.x ≤ x ∧ x - e.x < 8

instance (e : SpriteEntry) (x : Nat) : Decidable (sprInRange e x) := by
  unfold sprInRange; infer_instance

/-- The 2-bit pixel sprite `e` shows at column `x` (after the optional
horizontal flip of `xdiff`). -/
def sprPix (e : SpriteEntry) (x : Nat) : Nat :=
  let xdiff := x - e.x
  let xdiff := if e.attr &&& 0x40 = 0 then 7 - xdiff else xdiff
  e.pattern >>> (xdiff * 2) &&& 3

/-- The first sprite of OAM3[0..sprrenpos) that is in range at the current
column and shows a non-transparent pixel — the one the sprite loop of
`Ppu::render_pixel` stops at. -/
def Ppu.findSprite (s : Ppu) : Option Nat :=
  (List.range s.sprrenpos).find?
    (fun sno => decide (sprInRange (s.OAM3 sno) s.x) && sprPix (s.OAM3 sno) s.x != 0)

/-- `Ppu::render_pixel`: composite the background pixel and the first
non-transparent sprite pixel, register a sprite-0 hit when applicable, and
emit the final palette index (plus emphasis bits) into the frame buffer;
the host-side RGB conversion (`IO::PutPixel`) is external to the PPU. -/
def Ppu.render_pixel (s : Ppu) : Ppu :=
  let edge := (s.x + 8) % 256 < 16
  let showbg := s.ShowBG ∧ (¬ edge ∨ s.ShowBG8)
  let showsp := s.ShowSP ∧ (¬ edge ∨ s.ShowSP8)
  let xpos := 15 - ((s.x % 8 + s.xfine + 8 * (if s.x % 8 ≠ 0 then 1 else 0)) % 16)
  let pixel :=
    if showbg then s.bg_shift_pat >>> (xpos * 2) &&& 3
    else if s.vaddr &&& 0x3F00 = 0x3F00 ∧ s.ShowBGSP = 0 then s.vaddr else 0
  let attr :=
    if showbg then s.bg_shift_attr >>> (xpos * 2) &&& (if pixel ≠ 0 then 3 else 0)
    else 0
  let (pixel, attr, sp0) :=
    if showsp then
      match s.findSprite with
      | some sno =>
        let e := s.OAM3 sno
        let spritepixel := sprPix e s.x
        let sp0 := decide (s.x < 255 ∧ pixel ≠ 0 ∧ e.sprindex = 0)
        if e.attr &&& 0x20 = 0 ∨ pixel = 0 then (spritepixel, (e.attr &&& 3) + 4, sp0)
        else (pixel, attr, sp0)
      | none => (pixel, attr, false)
    else (pixel, attr, false)
  let outPix := s.palette ((attr * 4 + pixel) &&& 0x1F) % 256 &&&
    (if s.Grayscale then 0x30 else 0x3F)
  { s with SP0hit := s.SP0hit || sp0,
           frame_buffer := Function.update s.frame_buffer (s.scanline.toNat * 256 + s.x)
             (outPix ||| (s.EmpRGB <<< 6)) }

/-- The VBlank edge servicing at the top of each beat of `Ppu::TickNTSC`
and `Ppu::TickPAL`: -5 clears the status register, 2 raises InVBlank, and
at rest (0) the CPU NMI line is driven from InVBlank AND NMIenabled. -/
def Ppu.vblankService (s : Ppu) : Ppu :=
  if s.VBlankState = -5 then { s with SPoverflow := false, SP0hit := false, InVBlank := false }
  else if s.VBlankState = 2 then { s with InVBlank := true }
  else if s.VBlankState = 0 then { s with nmi := s.InVBlank && s.NMIenabled }
  else s

/-- `if(VBlankState != 0) VBlankState += (VBlankState < 0 ? 1 : -1)`. -/
def Ppu.vblankAdvance (s : Ppu) : Ppu :=
  if s.VBlankState ≠ 0 then
    { s with VBlankState := s.VBlankState + (if s.VBlankState < 0 then 1 else -1) }
  else s

/-- `if(open_bus_decay_timer) if(!--open_bus_decay_timer) open_bus_ = 0`. -/
def Ppu.openBusDecay (s : Ppu) : Ppu :=
  if s.open_bus_decay_timer ≠ 0 then
    let t := s.open_bus_decay_timer - 1
    if t = 0 then { s with open_bus_decay_timer := 0, open_bus_ := 0 }
    else { s with open_bus_decay_timer := t }
  else s

/-- The graphics work of a beat: on scanlines < 240 run the rendering
pipeline when rendering is enabled, and composite a pixel in the visible
area. -/
def Ppu.gfxWork (s : Ppu) : Ppu :=
  if s.scanline < 240 then
    let s := if s.ShowBGSP ≠ 0 then s.rendering_tick else s
    if 0 ≤ s.scanline ∧ s.x < 256 then s.render_pixel else s
  else s

/-- End-of-beat column/scanline advance of `Ppu::TickNTSC` (wrap of
scanline 261 to the pre-render line -1; the `on_render` and
`on_vertical_blank` collaborator callbacks are external to the PPU state). -/
def Ppu.scanlineAdvanceNTSC (s : Ppu) : Ppu :=
  if s.x + 1 = s.scanline_end then
    let s := { s with scanline_end := 341, x := 0 }
    if s.scanline + 1 = 261 then
      { s with scanline := -1, even_odd_toggle := !s.even_odd_toggle, VBlankState := -5 }
    else if s.scanline + 1 = 241 then
      { s with scanline := 241, VBlankState := 2 }
    else { s with scanline := s.scanline + 1 }
  else { s with x := s.x + 1 }

/-- End-of-beat column/scanline advance of `Ppu::TickPAL` (wrap at 311). -/
def Ppu.scanlineAdvancePAL (s : Ppu) : Ppu :=
  if s.x + 1 = s.scanline_end then
    let s := { s with scanline_end := 341, x := 0 }
    if s.scanline + 1 = 311 then
      { s with scanline := -1, even_odd_toggle := !s.even_odd_toggle, VBlankState := -5 }
    else if s.scanline + 1 = 241 then
      { s with scanline := 241, VBlankState := 2 }
    else { s with scanline := s.scanline + 1 }
  else { s with x := s.x + 1 }

/-- One beat of `Ppu::TickNTSC` (one iteration of its 3-beat loop),
including the NTSC pixel-phase counter and the sprite-0-hit timing hack
at scanline 260, x in [328,339]; the mapper `PpuTick` hook is external. -/
def Ppu.beatNTSC (s : Ppu) : Ppu :=
  let s := s.vblankService
  let s := s.vblankAdvance
  let s := s.openBusDecay
  let s := s.gfxWork
  let s := { s with cycle_counter := if s.cycle_counter + 1 = 3 then 0 else s.cycle_counter + 1 }
  let s := if s.scanline = 260 ∧ 328 ≤ s.x ∧ s.x ≤ 339 then { s with SP0hit := false } else s
  let s := s.scanlineAdvanceNTSC
  { s with cycles := s.cycles + 1 }

/-- One beat of `Ppu::TickPAL` (one iteration of its loop; PAL has no
pixel-phase counter and no sprite-0-hit hack). -/
def Ppu.beatPAL (s : Ppu) : Ppu :=
  let s := s.vblankService
  let s := s.vblankAdvance
  let s := s.openBusDecay
  let s := s.gfxWork
  let s := s.scanlineAdvancePAL
  { s with cycles := s.cycles + 1 }

/-- An all-zero PPU state over empty memories, used as the base point for
the concrete witnesses below. -/
def Ppu.base : Ppu :=
  { sysctrl := 0, dispctrl := 0, SPoverflow := false, SP0hit := false, InVBlank := false,
    OAMaddr := 0, scroll := 0, vaddr := 0, xfine := 0, offset_toggle_ := false,
    read_buffer := 0, open_bus_ := 0, open_bus_decay_timer := 0, VBlankState := 0,
    OAM := fun _ => 0, OAM2 := fun _ => ⟨0, 0, 0, 0, 0, 0⟩, OAM3 := fun _ => ⟨0, 0, 0, 0, 0, 0⟩,
    sprinpos := 0, sproutpos := 0, sprrenpos := 0, sprtmp := 0,
    scanline := 241, x := 0, scanline_end := 341, cycle_counter := 0,
    even_odd_toggle := false, cycles := 0, mode_ := PpuMode.NTSC,
    palette := fun _ => 0, chr := fun _ => 0, nta := fun _ => 0, nmi := false,
    frame_buffer := fun _ => 0, pat_addr := 0, ioaddr := 0, tilepat := 0,
    tileattr := 0, bg_shift_pat := 0, bg_shift_attr := 0 }

/-- The background-fetch switch never touches the open bus, the NMI line,
the sprite-0-hit flag, the beat position, or the VBlank state machine. -/
theorem Ppu.bgFetchPhase_frame (s : Ppu) :
    (s.bgFetchPhase).open_bus_ = s.open_bus_ ∧
    (s.bgFetchPhase).open_bus_decay_timer = s.open_bus_decay_timer ∧
    (s.bgFetchPhase).nmi = s.nmi ∧
    (s.bgFetchPhase).SP0hit = s.SP0hit ∧
    (s.bgFetchPhase).x = s.x ∧
    (s.bgFetchPhase).scanline = s.scanline ∧
    (s.bgFetchPhase).VBlankState = s.VBlankState := by
  simp only [Ppu.bgFetchPhase, Ppu.bgCase0, Ppu.bgCase1, Ppu.bgCase2, Ppu.bgCase3,
    Ppu.bgCase5, Ppu.bgCase7]
  repeat' split
  all_goals simp

/-- The sprite-evaluation switch never touches the open bus, the NMI line,
the sprite-0-hit flag, the beat position, or the VBlank state machine. -/
theorem Ppu.sprEvalPhase_frame (s : Ppu) :
    (s.sprEvalPhase).open_bus_ = s.open_bus_ ∧
    (s.sprEvalPhase).open_bus_decay_timer = s.open_bus_decay_timer ∧
    (s.sprEvalPhase).nmi = s.nmi ∧
    (s.sprEvalPhase).SP0hit = s.SP0hit ∧
    (s.sprEvalPhase).x = s.x ∧
    (s.sprEvalPhase).scanline = s.scanline ∧
    (s.sprEvalPhase).VBlankState = s.VBlankState := by
  simp only [Ppu.sprEvalPhase]
  repeat' split
  all_goals simp

/-- `rendering_tick` frame: open bus, NMI, SP0hit, beat position and
VBlank state machine are untouched. -/
theorem Ppu.rendering_tick_frame (s : Ppu) :
    (s.rendering_tick).open_bus_ = s.open_bus_ ∧
    (s.rendering_tick).open_bus_decay_timer = s.open_bus_decay_timer ∧
    (s.rendering_tick).nmi = s.nmi ∧
    (s.rendering_tick).SP0hit = s.SP0hit ∧
    (s.rendering_tick).x = s.x ∧
    (s.rendering_tick).scanline = s.scanline ∧
    (s.rendering_tick).VBlankState = s.VBlankState := by
  have h1 := s.bgFetchPhase_frame
  have h2 := (s.bgFetchPhase).sprEvalPhase_frame
  unfold Ppu.rendering_tick
  exact ⟨h2.1.trans h1.1, h2.2.1.trans h1.2.1, h2.2.2.1.trans h1.2.2.1,
    h2.2.2.2.1.trans h1.2.2.2.1, h2.2.2.2.2.1.trans h1.2.2.2.2.1,
    h2.2.2.2.2.2.1.trans h1.2.2.2.2.2.1, h2.2.2.2.2.2.2.trans h1.2.2.2.2.2.2⟩

/-- `render_pixel` frame: it only writes SP0hit and the frame buffer. -/
theorem Ppu.render_pixel_frame (s : Ppu) :
    (s.render_pixel).open_bus_ = s.open_bus_ ∧
    (s.render_pixel).open_bus_decay_timer = s.open_bus_decay_timer ∧
    (s.render_pixel).nmi = s.nmi ∧
    (s.render_pixel).x = s.x ∧
    (s.render_pixel).scanline = s.scanline ∧
    (s.render_pixel).VBlankState = s.VBlankState ∧
    (s.render_pixel).sprinpos = s.sprinpos ∧
    (s.render_pixel).sproutpos = s.sproutpos ∧
    (s.render_pixel).sprrenpos = s.sprrenpos := by
  exact ⟨rfl, rfl, rfl, rfl, rfl, rfl, rfl, rfl, rfl⟩

/-- `render_pixel` can only raise the sprite-0-hit flag, never clear it. -/
theorem Ppu.render_pixel_SP0hit_mono (s : Ppu) (h : s.SP0hit = true) :
    (s.render_pixel).SP0hit = true := by
  simp [Ppu.render_pixel, h]

/-- Projection views of the `rendering_tick` frame, for rewriting. -/
theorem Ppu.rt_open_bus (s : Ppu) : (s.rendering_tick).open_bus_ = s.open_bus_ :=
  s.rendering_tick_frame.1

/-- `rendering_tick` leaves the decay timer alone. -/
theorem Ppu.rt_timer (s : Ppu) :
    (s.rendering_tick).open_bus_decay_timer = s.open_bus_decay_timer :=
  s.rendering_tick_frame.2.1

/-- `rendering_tick` leaves the NMI line alone. -/
theorem Ppu.rt_nmi (s : Ppu) : (s.rendering_tick).nmi = s.nmi :=
  s.rendering_tick_frame.2.2.1

/-- `rendering_tick` leaves the sprite-0-hit flag alone. -/
theorem Ppu.rt_SP0hit (s : Ppu) : (s.rendering_tick).SP0hit = s.SP0hit :=
  s.rendering_tick_frame.2.2.2.1

/-- `rendering_tick` leaves the column alone. -/
theorem Ppu.rt_x (s : Ppu) : (s.rendering_tick).x = s.x :=
  s.rendering_tick_frame.2.2.2.2.1

/-- `rendering_tick` leaves the scanline alone. -/
theorem Ppu.rt_scanline (s : Ppu) : (s.rendering_tick).scanline = s.scanline :=
  s.rendering_tick_frame.2.2.2.2.2.1

/-- `rendering_tick` leaves the VBlank state machine alone. -/
theorem Ppu.rt_VBlankState (s : Ppu) : (s.rendering_tick).VBlankState = s.VBlankState :=
  s.rendering_tick_frame.2.2.2.2.2.2

/-- `render_pixel` projection views, for rewriting. -/
theorem Ppu.rp_open_bus (s : Ppu) : (s.render_pixel).open_bus_ = s.open_bus_ := rfl

/-- `render_pixel` leaves the decay timer alone. -/
theorem Ppu.rp_timer (s : Ppu) :
    (s.render_pixel).open_bus_decay_timer = s.open_bus_decay_timer := rfl

/-- `render_pixel` leaves the NMI line alone. -/
theorem Ppu.rp_nmi (s : Ppu) : (s.render_pixel).nmi = s.nmi := rfl

/-- `render_pixel` leaves the column alone. -/
theorem Ppu.rp_x (s : Ppu) : (s.render_pixel).x = s.x := rfl

/-- `render_pixel` leaves the scanline alone. -/
theorem Ppu.rp_scanline (s : Ppu) : (s.render_pixel).scanline = s.scanline := rfl

/-- `render_pixel` leaves the VBlank state machine alone. -/
theorem Ppu.rp_VBlankState (s : Ppu) : (s.render_pixel).VBlankState = s.VBlankState := rfl

/-- `render_pixel` leaves the sprite counters alone. -/
theorem Ppu.rp_counters (s : Ppu) :
    (s.render_pixel).sprinpos = s.sprinpos ∧ (s.render_pixel).sproutpos = s.sproutpos ∧
    (s.render_pixel).sprrenpos = s.sprrenpos :=
  ⟨rfl, rfl, rfl⟩

/-- The graphics work of a beat preserves the open bus, the NMI line, the
beat position, and the VBlank state machine. -/
theorem Ppu.gfxWork_frame (s : Ppu) :
    (s.gfxWork).open_bus_ = s.open_bus_ ∧
    (s.gfxWork).open_bus_decay_timer = s.open_bus_decay_timer ∧
    (s.gfxWork).nmi = s.nmi ∧
    (s.gfxWork).x = s.x ∧
    (s.gfxWork).scanline = s.scanline ∧
    (s.gfxWork).VBlankState = s.VBlankState := by
  simp only [Ppu.gfxWork]
  repeat' split
  all_goals simp [Ppu.rt_open_bus, Ppu.rt_timer, Ppu.rt_nmi, Ppu.rt_x, Ppu.rt_scanline,
    Ppu.rt_VBlankState, Ppu.rp_open_bus, Ppu.rp_timer, Ppu.rp_nmi, Ppu.rp_x,
    Ppu.rp_scanline, Ppu.rp_VBlankState]

/-- VBlank servicing leaves the beat position, the open bus, and the
VBlank counter itself untouched. -/
theorem Ppu.vs_frame (s : Ppu) :
    (s.vblankService).scanline = s.scanline ∧ (s.vblankService).x = s.x ∧
    (s.vblankService).open_bus_ = s.open_bus_ ∧
    (s.vblankService).open_bus_decay_timer = s.open_bus_decay_timer ∧
    (s.vblankService).scanline_end = s.scanline_end ∧
    (s.vblankService).VBlankState = s.VBlankState := by
  simp only [Ppu.vblankService]
  repeat' split
  all_goals simp

/-- Unless the -5 status clear fires, VBlank servicing keeps SP0hit. -/
theorem Ppu.vs_SP0hit (s : Ppu) (h : s.VBlankState ≠ -5) :
    (s.vblankService).SP0hit = s.SP0hit := by
  simp only [Ppu.vblankService]
  repeat' split
  all_goals simp_all

/-- The VBlank counter advance only changes VBlankState. -/
theorem Ppu.va_frame (s : Ppu) :
    (s.vblankAdvance).scanline = s.scanline ∧ (s.vblankAdvance).x = s.x ∧
    (s.vblankAdvance).open_bus_ = s.open_bus_ ∧
    (s.vblankAdvance).open_bus_decay_timer = s.open_bus_decay_timer ∧
    (s.vblankAdvance).SP0hit = s.SP0hit ∧ (s.vblankAdvance).nmi = s.nmi ∧
    (s.vblankAdvance).InVBlank = s.InVBlank ∧
    (s.vblankAdvance).scanline_end = s.scanline_end := by
  simp only [Ppu.vblankAdvance]
  repeat' split
  all_goals simp

/-- Open-bus decay only changes the latch and its timer. -/
theorem Ppu.obd_frame (s : Ppu) :
    (s.openBusDecay).scanline = s.scanline ∧ (s.openBusDecay).x = s.x ∧
    (s.openBusDecay).SP0hit = s.SP0hit ∧ (s.openBusDecay).nmi = s.nmi ∧
    (s.openBusDecay).InVBlank = s.InVBlank ∧
    (s.openBusDecay).scanline_end = s.scanline_end ∧
    (s.openBusDecay).VBlankState = s.VBlankState := by
  simp only [Ppu.openBusDecay]
  repeat' split
  all_goals simp

/-- The NTSC scanline advance does not touch SP0hit, NMI, or the open bus. -/
theorem Ppu.saN_frame (s : Ppu) :
    (s.scanlineAdvanceNTSC).SP0hit = s.SP0hit ∧ (s.scanlineAdvanceNTSC).nmi = s.nmi ∧
    (s.scanlineAdvanceNTSC).open_bus_ = s.open_bus_ ∧
    (s.scanlineAdvanceNTSC).open_bus_decay_timer = s.open_bus_decay_timer := by
  simp only [Ppu.scanlineAdvanceNTSC]
  repeat' split
  all_goals simp

/-- The PAL scanline advance does not touch SP0hit, NMI, or the open bus. -/
theorem Ppu.saP_frame (s : Ppu) :
    (s.scanlineAdvancePAL).SP0hit = s.SP0hit ∧ (s.scanlineAdvancePAL).nmi = s.nmi ∧
    (s.scanlineAdvancePAL).open_bus_ = s.open_bus_ ∧
    (s.scanlineAdvancePAL).open_bus_decay_timer = s.open_bus_decay_timer := by
  simp only [Ppu.scanlineAdvancePAL]
  repeat' split
  all_goals simp

/-- The graphics work can only raise the sprite-0-hit flag. -/
theorem Ppu.gfx_SP0hit_mono (s : Ppu) (h : s.SP0hit = true) : (s.gfxWork).SP0hit = true := by
  simp only [Ppu.gfxWork]
  repeat' split
  all_goals
    simp_all [Ppu.render_pixel_SP0hit_mono, Ppu.rt_SP0hit,
      Ppu.render_pixel_SP0hit_mono _ ((Ppu.rt_SP0hit _).trans h)]

/-- `render_pixel` leaves `sprinpos` alone. -/
theorem Ppu.rp_sprinpos (s : Ppu) : (s.render_pixel).sprinpos = s.sprinpos := rfl

/-- `render_pixel` leaves `sproutpos` alone. -/
theorem Ppu.rp_sproutpos (s : Ppu) : (s.render_pixel).sproutpos = s.sproutpos := rfl

/-- `render_pixel` leaves `sprrenpos` alone. -/
theorem Ppu.rp_sprrenpos (s : Ppu) : (s.render_pixel).sprrenpos = s.sprrenpos := rfl

/-- VBlank servicing leaves the sprite counters alone. -/
theorem Ppu.vs_counters (s : Ppu) :
    (s.vblankService).sprinpos = s.sprinpos ∧ (s.vblankService).sproutpos = s.sproutpos ∧
    (s.vblankService).sprrenpos = s.sprrenpos := by
  simp only [Ppu.vblankService]
  repeat' split
  all_goals simp

/-- The VBlank counter advance leaves the sprite counters alone. -/
theorem Ppu.va_counters (s : Ppu) :
    (s.vblankAdvance).sprinpos = s.sprinpos ∧ (s.vblankAdvance).sproutpos = s.sproutpos ∧
    (s.vblankAdvance).sprrenpos = s.sprrenpos := by
  simp only [Ppu.vblankAdvance]
  repeat' split
  all_goals simp

/-- Open-bus decay leaves the sprite counters alone. -/
theorem Ppu.obd_counters (s : Ppu) :
    (s.openBusDecay).sprinpos = s.sprinpos ∧ (s.openBusDecay).sproutpos = s.sproutpos ∧
    (s.openBusDecay).sprrenpos = s.sprrenpos := by
  simp only [Ppu.openBusDecay]
  repeat' split
  all_goals simp

/-- The NTSC scanline advance leaves the sprite counters alone. -/
theorem Ppu.saN_counters (s : Ppu) :
    (s.scanlineAdvanceNTSC).sprinpos = s.sprinpos ∧
    (s.scanlineAdvanceNTSC).sproutpos = s.sproutpos ∧
    (s.scanlineAdvanceNTSC).sprrenpos = s.sprrenpos := by
  simp only [Ppu.scanlineAdvanceNTSC]
  repeat' split
  all_goals simp

/-- Right shift distributes over bitwise or. -/
theorem shiftRight_lor (a b n : Nat) : (a ||| b) >>> n = a >>> n ||| b >>> n := by
  apply Nat.eq_of_testBit_eq; intro k
  simp [Nat.testBit_lor]

/-- Left shift distributes over bitwise or. -/
theorem shiftLeft_lor (a b n : Nat) : (a ||| b) <<< n = a <<< n ||| b <<< n := by
  apply Nat.eq_of_testBit_eq; intro k
  simp [Nat.testBit_lor, Nat.testBit_shiftLeft, Bool.and_or_distrib_left]

/-- The first swap-mask stage distributes over bitwise or. -/
theorem st1_lor (a b : Nat) : st1 (a ||| b) = st1 a ||| st1 b := by
  simp only [st1, Nat.and_distrib_right, shiftRight_lor, shiftLeft_lor]
  ac_rfl

/-- The second swap-mask stage distributes over bitwise or. -/
theorem st2_lor (a b : Nat) : st2 (a ||| b) = st2 a ||| st2 b := by
  simp only [st2, Nat.and_distrib_right, shiftRight_lor, shiftLeft_lor]
  ac_rfl

/-- The third swap-mask stage distributes over bitwise or. -/
theorem st3_lor (a b : Nat) : st3 (a ||| b) = st3 a ||| st3 b := by
  simp only [st3, Nat.and_distrib_right, shiftRight_lor, shiftLeft_lor]
  ac_rfl

/-- The full three-stage interleave distributes over bitwise or. -/
theorem interleaveStages_lor (a b : Nat) :
    interleaveStages (a ||| b) = interleaveStages a ||| interleaveStages b := by
  simp only [interleaveStages, st1_lor, st2_lor, st3_lor]

/-- Even-bit extraction distributes over bitwise or. -/
theorem evenBits_lor (a b : Nat) : evenBits (a ||| b) = evenBits a ||| evenBits b := by
  simp only [evenBits, shiftRight_lor, Nat.and_distrib_right, shiftLeft_lor]
  ac_rfl

/-- Odd-bit extraction distributes over bitwise or. -/
theorem oddBits_lor (a b : Nat) : oddBits (a ||| b) = oddBits a ||| oddBits b := by
  simp only [oddBits, shiftRight_lor, Nat.and_distrib_right, shiftLeft_lor]
  ac_rfl

/-- On a bare low byte the three swap-mask stages spread its bits onto the
even positions (checked exhaustively for all 256 bytes). -/
theorem interleaveStages_low : ∀ l < 256, interleaveStages l = spreadLow l := by decide

/-- On a shifted high byte the three swap-mask stages spread its bits onto
the odd positions (checked exhaustively). -/
theorem interleaveStages_high : ∀ h < 256, interleaveStages (h <<< 8) = spreadHigh h := by
  decide

/-- Even-bit extraction undoes `spreadLow` (checked exhaustively). -/
theorem evenBits_spreadLow : ∀ l < 256, evenBits (spreadLow l) = l := by decide

/-- `spreadHigh` contributes nothing to the even positions. -/
theorem evenBits_spreadHigh : ∀ h < 256, evenBits (spreadHigh h) = 0 := by decide

/-- `spreadLow` contributes nothing to the odd positions. -/
theorem oddBits_spreadLow : ∀ l < 256, oddBits (spreadLow l) = 0 := by decide

/-- Odd-bit extraction undoes `spreadHigh` (checked exhaustively). -/
theorem oddBits_spreadHigh : ∀ h < 256, oddBits (spreadHigh h) = h := by decide

/-- Disjoint or of a 6-bit value shifted by 8 with a byte is plain addition
(checked exhaustively). -/
theorem lor_shift8 : ∀ a < 64, ∀ b < 256, (a <<< 8) ||| b = 256 * a + b := by decide

set_option maxHeartbeats 2000000 in
/-- The background-fetch switch preserves the sprite counter bounds
(sproutpos ≤ 8, sprinpos ≤ 64, sprrenpos ≤ 8). -/
theorem Ppu.bgFetch_bounds (s : Ppu) (h8 : s.sproutpos ≤ 8) (h64 : s.sprinpos ≤ 64)
    (hr : s.sprrenpos ≤ 8) :
    (s.bgFetchPhase).sproutpos ≤ 8 ∧ (s.bgFetchPhase).sprinpos ≤ 64 ∧
    (s.bgFetchPhase).sprrenpos ≤ 8 := by
  simp only [Ppu.bgFetchPhase, Ppu.bgCase0, Ppu.bgCase1, Ppu.bgCase2, Ppu.bgCase3,
    Ppu.bgCase5, Ppu.bgCase7]
  repeat' split
  all_goals refine ⟨?_, ?_, ?_⟩
  all_goals dsimp only
  all_goals omega

set_option maxHeartbeats 2000000 in
/-- The sprite-evaluation switch preserves the sprite counter bounds. -/
theorem Ppu.sprEval_bounds (s : Ppu) (h8 : s.sproutpos ≤ 8) (h64 : s.sprinpos ≤ 64)
    (hr : s.sprrenpos ≤ 8) :
    (s.sprEvalPhase).sproutpos ≤ 8 ∧ (s.sprEvalPhase).sprinpos ≤ 64 ∧
    (s.sprEvalPhase).sprrenpos ≤ 8 := by
  simp only [Ppu.sprEvalPhase]
  repeat' split
  all_goals refine ⟨?_, ?_, ?_⟩
  all_goals dsimp only
  all_goals omega

/-- `rendering_tick` preserves the sprite counter bounds. -/
theorem Ppu.rendering_tick_bounds (s : Ppu) (h8 : s.sproutpos ≤ 8) (h64 : s.sprinpos ≤ 64)
    (hr : s.sprrenpos ≤ 8) :
    (s.rendering_tick).sproutpos ≤ 8 ∧ (s.rendering_tick).sprinpos ≤ 64 ∧
    (s.rendering_tick).sprrenpos ≤ 8 := by
  have h1 := s.bgFetch_bounds h8 h64 hr
  exact (s.bgFetchPhase).sprEval_bounds h1.1 h1.2.1 h1.2.2

/-- The graphics work of a beat preserves the sprite counter bounds. -/
theorem Ppu.gfx_bounds (s : Ppu) (h8 : s.sproutpos ≤ 8) (h64 : s.sprinpos ≤ 64)
    (hr : s.sprrenpos ≤ 8) :
    (s.gfxWork).sproutpos ≤ 8 ∧ (s.gfxWork).sprinpos ≤ 64 ∧ (s.gfxWork).sprrenpos ≤ 8 := by
  have hrt := s.rendering_tick_bounds h8 h64 hr
  simp only [Ppu.gfxWork]
  repeat' split
  all_goals simp [Ppu.rp_sprinpos, Ppu.rp_sproutpos, Ppu.rp_sprrenpos,
    hrt.1, hrt.2.1, hrt.2.2, h8, h64, hr]

/-- A whole NTSC beat preserves the sprite counter bounds. -/
theorem Ppu.beatNTSC_bounds (s : Ppu) (h8 : s.sproutpos ≤ 8) (h64 : s.sprinpos ≤ 64)
    (hr : s.sprrenpos ≤ 8) :
    (s.beatNTSC).sproutpos ≤ 8 ∧ (s.beatNTSC).sprinpos ≤ 64 ∧ (s.beatNTSC).sprrenpos ≤ 8 := by
  have hb : (((s.vblankService).vblankAdvance).openBusDecay).sproutpos ≤ 8 ∧
      (((s.vblankService).vblankAdvance).openBusDecay).sprinpos ≤ 64 ∧
      (((s.vblankService).vblankAdvance).openBusDecay).sprrenpos ≤ 8 := by
    refine ⟨?_, ?_, ?_⟩ <;>
      simp [Ppu.obd_counters, Ppu.va_counters, Ppu.vs_counters, h8, h64, hr]
  have h4 := (((s.vblankService).vblankAdvance).openBusDecay).gfx_bounds hb.1 hb.2.1 hb.2.2
  simp only [Ppu.beatNTSC]
  repeat' split
  all_goals refine ⟨?_, ?_, ?_⟩
  all_goals simp [Ppu.saN_counters, h4.1, h4.2.1, h4.2.2]

set_option maxHeartbeats 2000000 in
/-- Every CPU write refreshes the open-bus latch with the written byte and
rearms the decay timer, whatever the port. -/
theorem Ppu.Write_open_bus (s : Ppu) (address data : Nat) :
    (s.Write address data).open_bus_ = data % 256 ∧
    (s.Write address data).open_bus_decay_timer = 77777 := by
  simp only [Ppu.Write, Ppu.RefreshOpenBus]
  repeat' split
  all_goals refine ⟨?_, ?_⟩
  all_goals dsimp only
  all_goals omega

/-- Reads of ports 4 and 7 refresh the open-bus latch with the byte they
return and rearm the decay timer. -/
theorem Ppu.Read_refresh (s : Ppu) (address : Nat) (hrb : s.read_buffer < 256)
    (h : address % 8 = 4 ∨ address % 8 = 7) :
    (s.Read address).2.open_bus_ = (s.Read address).1 ∧
    (s.Read address).2.open_bus_decay_timer = 77777 := by
  rcases h with h | h
  · have hb : s.OAM s.OAMaddr % 256 &&& (if s.OAMdata = 2 then 0xE3 else 0xFF) < 256 :=
      Nat.lt_of_le_of_lt Nat.and_le_left (Nat.mod_lt _ (by norm_num))
    simp only [Ppu.Read, h, Ppu.RefreshOpenBus]
    norm_num [Nat.mod_eq_of_lt hb]
  · simp only [Ppu.Read, h, Ppu.RefreshOpenBus]
    norm_num
    split
    · have hb : (s.open_bus_ &&& 0xC0) ||| (s.mmapRead s.vaddr &&& 0x3F) < 256 :=
        Nat.or_lt_two_pow (n := 8) (Nat.lt_of_le_of_lt Nat.and_le_right (by norm_num))
          (Nat.lt_of_le_of_lt Nat.and_le_right (by norm_num))
      simp [Nat.mod_eq_of_lt hb, hb]
    · simp [Nat.mod_eq_of_lt hrb, hrb]

/-- Reads of the other ports leave the open-bus latch and its timer alone. -/
theorem Ppu.Read_no_refresh (s : Ppu) (address : Nat) (h4 : address % 8 ≠ 4)
    (h7 : address % 8 ≠ 7) :
    (s.Read address).2.open_bus_ = s.open_bus_ ∧
    (s.Read address).2.open_bus_decay_timer = s.open_bus_decay_timer := by
  simp only [Ppu.Read]
  repeat' split
  all_goals simp_all

/-- When the decay timer is about to expire, the beat clears the latch. -/
theorem Ppu.decay_clears (s : Ppu) (h1 : s.open_bus_decay_timer = 1) :
    (s.beatNTSC).open_bus_ = 0 ∧ (s.beatPAL).open_bus_ = 0 := by
  have h3 : (((s.vblankService).vblankAdvance).openBusDecay).open_bus_ = 0 := by
    have h2 : ((s.vblankService).vblankAdvance).open_bus_decay_timer = 1 := by
      simp [Ppu.va_frame, Ppu.vs_frame, h1]
    simp [Ppu.openBusDecay, h2]
  constructor
  · simp only [Ppu.beatNTSC]
    split <;> simp [Ppu.saN_frame, Ppu.gfxWork_frame, h3]
  · simp only [Ppu.beatPAL]
    simp [Ppu.saP_frame, Ppu.gfxWork_frame, h3]

/-- C1: immediately after a Read of port 2 (status) the InVBlank flag and
the shared write-toggle are false, VBlankState is forced to 0 unless it
was -5 (then unchanged), and the returned byte is the pre-read status
bits (upper 3 bits) merged with the low 5 bits of the open-bus latch. -/
theorem C1_read_status (s : Ppu) (address : Nat) (h : address % 8 = 2) :
    (s.Read address).1 = s.statusByte ||| (s.open_bus_ &&& 0x1F) ∧
    (s.Read address).2.InVBlank = false ∧
    (s.Read address).2.offset_toggle_ = false ∧
    (s.VBlankState = -5 → (s.Read address).2.VBlankState = -5) ∧
    (s.VBlankState ≠ -5 → (s.Read address).2.VBlankState = 0) := by
  simp only [Ppu.Read, h]
  norm_num
  refine ⟨?_, ?_, ?_, ?_⟩
  · split <;> simp
  · split <;> simp
  · intro hv; split <;> simp_all
  · intro hv; split <;> simp_all

/-- Concrete instantiation of `C1_read_status` at port 2. -/
theorem C1_witness :
    (2 : Nat) % 8 = 2 ∧
    (({Ppu.base with InVBlank := true, open_bus_ := 0xFF, VBlankState := 2}).Read 2).1 =
        ({Ppu.base with InVBlank := true, open_bus_ := 0xFF, VBlankState := 2}).statusByte |||
          (({Ppu.base with InVBlank := true, open_bus_ := 0xFF, VBlankState := 2}).open_bus_ &&& 0x1F) ∧
    (({Ppu.base with InVBlank := true, open_bus_ := 0xFF, VBlankState := 2}).Read 2).2.InVBlank = false ∧
    (({Ppu.base with InVBlank := true, open_bus_ := 0xFF, VBlankState := 2}).Read 2).2.offset_toggle_ = false ∧
    (({Ppu.base with InVBlank := true, open_bus_ := 0xFF, VBlankState := 2}).VBlankState = -5 →
      (({Ppu.base with InVBlank := true, open_bus_ := 0xFF, VBlankState := 2}).Read 2).2.VBlankState = -5) ∧
    (({Ppu.base with InVBlank := true, open_bus_ := 0xFF, VBlankState := 2}).VBlankState ≠ -5 →
      (({Ppu.base with InVBlank := true, open_bus_ := 0xFF, VBlankState := 2}).Read 2).2.VBlankState = 0) := by
  refine ⟨by decide, ?_⟩
  exact C1_read_status {Ppu.base with InVBlank := true, open_bus_ := 0xFF, VBlankState := 2} 2 (by decide)

/-- C2: starting with the write-toggle clear, writing bytes hi then lo to
port 6 leaves the current VRAM address equal to ((hi & 0x3F) << 8) | lo,
which also equals the temporary scroll latch's 14-bit address field. -/
theorem C2_vaddr_pair (s : Ppu) (hi lo : Nat) (hhi : hi < 256) (hlo : lo < 256)
    (ht : s.offset_toggle_ = false) (hs : s.scroll < 32768) :
    ((s.Write 6 hi).Write 6 lo).vaddr = ((hi &&& 0x3F) <<< 8) ||| lo ∧
    ((s.Write 6 hi).Write 6 lo).vaddr = ((s.Write 6 hi).Write 6 lo).scroll &&& 0x3FFF := by
  have h1 : hi % 256 = hi := Nat.mod_eq_of_lt hhi
  have h2 : lo % 256 = lo := Nat.mod_eq_of_lt hlo
  have h3 : hi &&& 0x3F < 64 := Nat.lt_succ_of_le Nat.and_le_right
  have h4 := lor_shift8 (hi &&& 0x3F) h3 lo hlo
  have h5 : s.scroll / 32768 = 0 := Nat.div_eq_of_lt hs
  have h6 : ∀ m : Nat, m &&& 16383 = m % 16384 := fun m => by
    have h := Nat.and_pow_two_sub_one_eq_mod m 14
    norm_num at h
    exact h
  simp only [Ppu.Write, Ppu.RefreshOpenBus, ht, h1, h2]
  norm_num [setField, h5, h6, h4]
  omega

/-- Concrete instantiation of `C2_vaddr_pair` with hi = 0xAB, lo = 0xCD. -/
theorem C2_witness :
    (0xAB : Nat) < 256 ∧ (0xCD : Nat) < 256 ∧ Ppu.base.offset_toggle_ = false ∧
    Ppu.base.scroll < 32768 ∧
    ((Ppu.base.Write 6 0xAB).Write 6 0xCD).vaddr = ((0xAB &&& 0x3F) <<< 8) ||| 0xCD ∧
    ((Ppu.base.Write 6 0xAB).Write 6 0xCD).vaddr =
      ((Ppu.base.Write 6 0xAB).Write 6 0xCD).scroll &&& 0x3FFF := by
  refine ⟨by decide, by decide, by decide, by decide, ?_, ?_⟩
  · exact (C2_vaddr_pair Ppu.base 0xAB 0xCD (by decide) (by decide) (by decide) (by decide)).1
  · exact (C2_vaddr_pair Ppu.base 0xAB 0xCD (by decide) (by decide) (by decide) (by decide)).2

/-- C3: a Read of port 7 returns the latched read_buffer outside the
palette range and reloads the buffer from VRAM at vaddr; inside the
palette range it returns the palette byte merged with the open-bus high
2 bits and reloads the buffer from the nametable slot at vaddr & 0x2FFF;
either way vaddr is auto-incremented by 1 or 32 (mod 2^15) according to
the control bit. -/
theorem C3_read_data (s : Ppu) (address : Nat) (h : address % 8 = 7) :
    (s.Read address).2.vaddr = (s.vaddr + if s.Inc then 32 else 1) % 32768 ∧
    (s.vaddr &&& 0x3F00 = 0x3F00 →
      (s.Read address).1 = (s.open_bus_ &&& 0xC0) ||| (s.mmapRead s.vaddr &&& 0x3F) ∧
      (s.Read address).2.read_buffer = s.mmapRead (s.vaddr &&& 0x2FFF)) ∧
    (s.vaddr &&& 0x3F00 ≠ 0x3F00 →
      (s.Read address).1 = s.read_buffer ∧
      (s.Read address).2.read_buffer = s.mmapRead s.vaddr) := by
  simp only [Ppu.Read, h]
  norm_num
  refine ⟨?_, ?_, ?_⟩
  · split <;> simp [Ppu.RefreshOpenBus, Ppu.Inc]
  · intro hp; simp [hp, Ppu.RefreshOpenBus]
  · intro hp; simp [hp, Ppu.RefreshOpenBus]

/-- Concrete instantiation of `C3_read_data` with vaddr in the palette range. -/
theorem C3_witness :
    (7 : Nat) % 8 = 7 ∧
    (({Ppu.base with vaddr := 0x3F00, read_buffer := 7}).Read 7).2.vaddr =
      (({Ppu.base with vaddr := 0x3F00, read_buffer := 7}).vaddr +
        if ({Ppu.base with vaddr := 0x3F00, read_buffer := 7}).Inc then 32 else 1) % 32768 ∧
    (({Ppu.base with vaddr := 0x3F00, read_buffer := 7}).vaddr &&& 0x3F00 = 0x3F00 →
      (({Ppu.base with vaddr := 0x3F00, read_buffer := 7}).Read 7).1 =
        (({Ppu.base with vaddr := 0x3F00, read_buffer := 7}).open_bus_ &&& 0xC0) |||
          (({Ppu.base with vaddr := 0x3F00, read_buffer := 7}).mmapRead 0x3F00 &&& 0x3F) ∧
      (({Ppu.base with vaddr := 0x3F00, read_buffer := 7}).Read 7).2.read_buffer =
        ({Ppu.base with vaddr := 0x3F00, read_buffer := 7}).mmapRead (0x3F00 &&& 0x2FFF)) := by
  have ha := C3_read_data {Ppu.base with vaddr := 0x3F00, read_buffer := 7} 7 (by decide)
  exact ⟨by decide, ha.1, fun hp => (ha.2.1 hp)⟩

/-- C4 counterexample: on the all-zero palette, writing 0x2A to VRAM
address 0x3F04 is NOT observable at 0x3F00 — `mmap` collapses addresses
divisible by 4 to their low nibble, so 0x3F04 lands in slot 4, not 0. -/
theorem C4_counterexample :
    ¬ ((Ppu.base.mmapWrite 0x3F04 0x2A).mmapRead 0x3F00 = 0x2A) := by decide

/-- C4 (amended): a palette write to an address divisible by 4 lands in
slot (address & 0x0F), so it is observable at every palette address
divisible by 4 with the same low nibble — 0x3F00 aliases with 0x3F10,
0x3F04 with 0x3F14, and so on — but 0x3F00/04/08/0C stay distinct. -/
theorem C4_palette_alias (s : Ppu) (i j b : Nat) (hb : b < 256)
    (hi1 : 0x3F00 ≤ i) (hi2 : i < 0x4000) (hi4 : i % 4 = 0)
    (hj1 : 0x3F00 ≤ j) (hj2 : j < 0x4000) (hj4 : j % 4 = 0)
    (hij : i % 16 = j % 16) :
    (s.mmapWrite i b).mmapRead j = b := by
  have mi : i &&& 16383 = i := by
    have h := Nat.and_pow_two_sub_one_eq_mod i 14
    norm_num at h; omega
  have mj : j &&& 16383 = j := by
    have h := Nat.and_pow_two_sub_one_eq_mod j 14
    norm_num at h; omega
  have m15i : i &&& 15 = i % 16 := by
    have h := Nat.and_pow_two_sub_one_eq_mod i 4
    norm_num at h; exact h
  have m15j : j &&& 15 = j % 16 := by
    have h := Nat.and_pow_two_sub_one_eq_mod j 4
    norm_num at h; exact h
  have m31i : i % 16 &&& 31 = i % 16 := by
    have h := Nat.and_pow_two_sub_one_eq_mod (i % 16) 5
    norm_num at h; omega
  have m31j : j % 16 &&& 31 = j % 16 := by
    have h := Nat.and_pow_two_sub_one_eq_mod (j % 16) 5
    norm_num at h; omega
  simp only [Ppu.mmapWrite, Ppu.mmapRead, mi, mj, hi4, hj4]
  simp only [hi1, hj1, if_pos, if_true, m15i, m15j, m31i, m31j]
  rw [hij]
  simp [Function.update_same]
  omega

/-- Concrete instantiation of `C4_palette_alias`: 0x3F10 aliases 0x3F00. -/
theorem C4_witness :
    (0x2A : Nat) < 256 ∧ (0x3F00 : Nat) ≤ 0x3F10 ∧ (0x3F10 : Nat) < 0x4000 ∧
    (0x3F10 : Nat) % 4 = 0 ∧ (0x3F00 : Nat) ≤ 0x3F00 ∧ (0x3F00 : Nat) < 0x4000 ∧
    (0x3F00 : Nat) % 4 = 0 ∧ (0x3F10 : Nat) % 16 = 0x3F00 % 16 ∧
    (Ppu.base.mmapWrite 0x3F10 0x2A).mmapRead 0x3F00 = 0x2A := by
  refine ⟨by decide, by decide, by decide, by decide, by decide, by decide, by decide,
    by decide, ?_⟩
  exact C4_palette_alias Ppu.base 0x3F10 0x3F00 0x2A (by decide) (by decide) (by decide)
    (by decide) (by decide) (by decide) (by decide) (by decide)

/-- C5 counterexample: a Read of port 0 does not reset the open-bus decay
timer (it stays at 5 instead of 77777), refuting the claim that every
register access refreshes latch and timer. -/
theorem C5_counterexample :
    ¬ (((({Ppu.base with open_bus_decay_timer := 5}).Read 0).2.open_bus_ =
          (({Ppu.base with open_bus_decay_timer := 5}).Read 0).1 ∧
        (({Ppu.base with open_bus_decay_timer := 5}).Read 0).2.open_bus_decay_timer = 77777)) := by
  decide

/-- C5 (amended): every Write refreshes the open-bus latch with the
written byte and rearms the decay timer; Reads of ports 4 and 7 refresh
the latch with the byte they return; Reads of the other ports leave both
the latch and the timer untouched; and when the per-beat decay brings
the timer from 1 to 0 the latch is cleared to 0. -/
theorem C5_open_bus (s : Ppu) (address data : Nat) (hrb : s.read_buffer < 256) :
    ((s.Write address data).open_bus_ = data % 256 ∧
      (s.Write address data).open_bus_decay_timer = 77777) ∧
    (address % 8 = 4 ∨ address % 8 = 7 →
      (s.Read address).2.open_bus_ = (s.Read address).1 ∧
      (s.Read address).2.open_bus_decay_timer = 77777) ∧
    (address % 8 ≠ 4 → address % 8 ≠ 7 →
      (s.Read address).2.open_bus_ = s.open_bus_ ∧
      (s.Read address).2.open_bus_decay_timer = s.open_bus_decay_timer) ∧
    (s.open_bus_decay_timer = 1 →
      (s.beatNTSC).open_bus_ = 0 ∧ (s.beatPAL).open_bus_ = 0) :=
  ⟨s.Write_open_bus address data,
   fun h => s.Read_refresh address hrb h,
   fun h4 h7 => s.Read_no_refresh address h4 h7,
   fun h1 => s.decay_clears h1⟩

/-- Concrete instantiation of `C5_open_bus` at port 4 with the timer at 1. -/
theorem C5_witness :
    ({Ppu.base with open_bus_decay_timer := 1}).read_buffer < 256 ∧
    ((({Ppu.base with open_bus_decay_timer := 1}).Write 4 9).open_bus_ = 9 % 256 ∧
      (({Ppu.base with open_bus_decay_timer := 1}).Write 4 9).open_bus_decay_timer = 77777) ∧
    ((4 : Nat) % 8 = 4 ∨ (4 : Nat) % 8 = 7 →
      (({Ppu.base with open_bus_decay_timer := 1}).Read 4).2.open_bus_ =
        (({Ppu.base with open_bus_decay_timer := 1}).Read 4).1 ∧
      (({Ppu.base with open_bus_decay_timer := 1}).Read 4).2.open_bus_decay_timer = 77777) ∧
    ((4 : Nat) % 8 ≠ 4 → (4 : Nat) % 8 ≠ 7 →
      (({Ppu.base with open_bus_decay_timer := 1}).Read 4).2.open_bus_ =
        ({Ppu.base with open_bus_decay_timer := 1}).open_bus_ ∧
      (({Ppu.base with open_bus_decay_timer := 1}).Read 4).2.open_bus_decay_timer =
        ({Ppu.base with open_bus_decay_timer := 1}).open_bus_decay_timer) ∧
    (({Ppu.base with open_bus_decay_timer := 1}).open_bus_decay_timer = 1 →
      (({Ppu.base with open_bus_decay_timer := 1}).beatNTSC).open_bus_ = 0 ∧
      (({Ppu.base with open_bus_decay_timer := 1}).beatPAL).open_bus_ = 0) := by
  refine ⟨by decide, ?_⟩
  exact C5_open_bus {Ppu.base with open_bus_decay_timer := 1} 4 9 (by decide)

/-- C6 (amended): the CPU NMI line is written, with the value
InVBlank AND NMIenabled, exactly on beats that start with VBlankState = 0
(in both the NTSC and the PAL beat); on beats starting with
VBlankState ≠ 0 the line keeps its previous value. -/
theorem C6_nmi_discipline (s : Ppu) :
    (s.beatNTSC).nmi = (if s.VBlankState = 0 then s.InVBlank && s.NMIenabled else s.nmi) ∧
    (s.beatPAL).nmi = (if s.VBlankState = 0 then s.InVBlank && s.NMIenabled else s.nmi) := by
  have hserv : ∀ t : Ppu,
      (t.beatNTSC).nmi = (t.vblankService).nmi ∧ (t.beatPAL).nmi = (t.vblankService).nmi := by
    intro t
    simp only [Ppu.beatNTSC, Ppu.beatPAL]
    constructor
    · split <;>
        simp [Ppu.saN_frame, Ppu.gfxWork_frame, Ppu.obd_frame, Ppu.va_frame]
    · simp [Ppu.saP_frame, Ppu.gfxWork_frame, Ppu.obd_frame, Ppu.va_frame]
  by_cases h0 : s.VBlankState = 0
  · have hs : (s.vblankService).nmi = (s.InVBlank && s.NMIenabled) := by
      unfold Ppu.vblankService
      rw [if_neg (by omega), if_neg (by omega), if_pos h0]
    rw [if_pos h0]
    exact ⟨(hserv s).1.trans hs, (hserv s).2.trans hs⟩
  · have hs : (s.vblankService).nmi = s.nmi := by
      unfold Ppu.vblankService
      repeat' split
      all_goals simp_all
    rw [if_neg h0]
    exact ⟨(hserv s).1.trans hs, (hserv s).2.trans hs⟩

/-- C6 counterexample: on a beat with VBlankState = 2 and NMI enabled the
beat raises InVBlank but leaves the NMI line at its stale value, so the
line is not a per-beat function of the PPU state. -/
theorem C6_counterexample :
    ¬ ((({Ppu.base with VBlankState := 2, sysctrl := 0x80, scanline := 250}).beatNTSC).nmi =
        ((({Ppu.base with VBlankState := 2, sysctrl := 0x80, scanline := 250}).beatNTSC).InVBlank &&
          (({Ppu.base with VBlankState := 2, sysctrl := 0x80, scanline := 250}).beatNTSC).NMIenabled)) := by
  decide

/-- C7 (amended): the dedicated beat-driver clear of the sprite-0-hit
flag fires at scanline 260 (the last vblank scanline), x in [328, 339] —
not on the pre-render scanline -1; on beats outside that window the beat
driver leaves a set flag set, except through the VBlankState = -5 status
clear. -/
theorem C7_sp0hit_window (s : Ppu) :
    (s.scanline = 260 ∧ 328 ≤ s.x ∧ s.x ≤ 339 → (s.beatNTSC).SP0hit = false) ∧
    (¬ (s.scanline = 260 ∧ 328 ≤ s.x ∧ s.x ≤ 339) → s.VBlankState ≠ -5 → s.SP0hit = true →
      (s.beatNTSC).SP0hit = true) := by
  constructor
  · rintro ⟨h1, h2, h3⟩
    simp only [Ppu.beatNTSC]
    split
    · simp [Ppu.saN_frame]
    · rename_i hneg
      exact absurd (by simp [Ppu.gfxWork_frame, Ppu.obd_frame, Ppu.va_frame, Ppu.vs_frame,
        h1, h2, h3]) hneg
  · intro hnot h5 hsp
    simp only [Ppu.beatNTSC]
    split
    · rename_i hc
      simp only [Ppu.gfxWork_frame, Ppu.obd_frame, Ppu.va_frame, Ppu.vs_frame] at hc
      exact absurd hc hnot
    · have hs1 : (s.vblankService).SP0hit = true := (Ppu.vs_SP0hit s h5).trans hsp
      have hs2 : ((s.vblankService).vblankAdvance).SP0hit = true := by
        simp [Ppu.va_frame, hs1]
      have hs3 : (((s.vblankService).vblankAdvance).openBusDecay).SP0hit = true := by
        simp [Ppu.obd_frame, hs2]
      have hs4 : ((((s.vblankService).vblankAdvance).openBusDecay).gfxWork).SP0hit = true :=
        Ppu.gfx_SP0hit_mono _ hs3
      simp [Ppu.saN_frame, hs4]

/-- C7 counterexample: on the pre-render scanline (-1) at x = 328 a set
sprite-0-hit flag survives the beat — the claimed clear does not happen
there. -/
theorem C7_counterexample :
    ¬ ((({Ppu.base with scanline := -1, x := 328, SP0hit := true}).beatNTSC).SP0hit = false) := by
  decide

/-- Concrete instantiations of both parts of `C7_sp0hit_window`. -/
theorem C7_witness :
    (({Ppu.base with scanline := 260, x := 330, SP0hit := true}).scanline = 260 ∧
      328 ≤ ({Ppu.base with scanline := 260, x := 330, SP0hit := true}).x ∧
      ({Ppu.base with scanline := 260, x := 330, SP0hit := true}).x ≤ 339) ∧
    (({Ppu.base with scanline := 260, x := 330, SP0hit := true}).beatNTSC).SP0hit = false ∧
    ¬ (({Ppu.base with scanline := 250, x := 5, SP0hit := true}).scanline = 260 ∧
        328 ≤ ({Ppu.base with scanline := 250, x := 5, SP0hit := true}).x ∧
        ({Ppu.base with scanline := 250, x := 5, SP0hit := true}).x ≤ 339) ∧
    ({Ppu.base with scanline := 250, x := 5, SP0hit := true}).VBlankState ≠ -5 ∧
    ({Ppu.base with scanline := 250, x := 5, SP0hit := true}).SP0hit = true ∧
    (({Ppu.base with scanline := 250, x := 5, SP0hit := true}).beatNTSC).SP0hit = true := by
  refine ⟨by decide, ?_, by decide, by decide, by decide, ?_⟩
  · exact (C7_sp0hit_window {Ppu.base with scanline := 260, x := 330, SP0hit := true}).1
      (by decide)
  · exact (C7_sp0hit_window {Ppu.base with scanline := 250, x := 5, SP0hit := true}).2
      (by decide) (by decide) (by decide)

/-- C8: for every pair of bytes, the three swap-mask stages applied to
low | (high << 8) produce the 16-bit word whose bit 2k holds bit k of the
low byte and bit 2k+1 holds bit k of the high byte, and de-interleaving
(collecting even and odd bits) recovers the original pair. -/
theorem C8_interleave (lo hi : Nat) (hlo : lo < 256) (hhi : hi < 256) :
    interleaveStages (lo ||| (hi <<< 8)) = interleaveBits lo hi ∧
    evenBits (interleaveStages (lo ||| (hi <<< 8))) = lo ∧
    oddBits (interleaveStages (lo ||| (hi <<< 8))) = hi := by
  have h1 : interleaveStages (lo ||| (hi <<< 8)) = spreadLow lo ||| spreadHigh hi := by
    rw [interleaveStages_lor, interleaveStages_low lo hlo, interleaveStages_high hi hhi]
  refine ⟨h1, ?_, ?_⟩
  · rw [h1, evenBits_lor, evenBits_spreadLow lo hlo, evenBits_spreadHigh hi hhi]
    simp
  · rw [h1, oddBits_lor, oddBits_spreadLow lo hlo, oddBits_spreadHigh hi hhi]
    simp

/-- Concrete instantiation of `C8_interleave` at (0xB4, 0x5D). -/
theorem C8_witness :
    (0xB4 : Nat) < 256 ∧ (0x5D : Nat) < 256 ∧
    interleaveStages (0xB4 ||| (0x5D <<< 8)) = interleaveBits 0xB4 0x5D ∧
    evenBits (interleaveStages (0xB4 ||| (0x5D <<< 8))) = 0xB4 ∧
    oddBits (interleaveStages (0xB4 ||| (0x5D <<< 8))) = 0x5D := by
  refine ⟨by decide, by decide, ?_⟩
  exact C8_interleave 0xB4 0x5D (by decide) (by decide)

/-- C9 (amended): the bounds sproutpos ≤ 8, sprinpos ≤ 64 and
sprrenpos ≤ 8 are preserved by `rendering_tick` and by a whole NTSC
beat.  The claimed stronger invariant sprrenpos ≤ sproutpos is not
preserved (see the counterexample). -/
theorem C9_counter_bounds (s : Ppu) (h8 : s.sproutpos ≤ 8) (h64 : s.sprinpos ≤ 64)
    (hr : s.sprrenpos ≤ 8) :
    ((s.rendering_tick).sproutpos ≤ 8 ∧ (s.rendering_tick).sprinpos ≤ 64 ∧
      (s.rendering_tick).sprrenpos ≤ 8) ∧
    ((s.beatNTSC).sproutpos ≤ 8 ∧ (s.beatNTSC).sprinpos ≤ 64 ∧
      (s.beatNTSC).sprrenpos ≤ 8) :=
  ⟨s.rendering_tick_bounds h8 h64 hr, s.beatNTSC_bounds h8 h64 hr⟩

/-- C9 counterexample: at x = 0 the sprite reset clears sproutpos without
clearing sprrenpos, so a state satisfying the claimed invariant
(sprrenpos ≤ sproutpos, bounds ok) leaves `rendering_tick` with
sprrenpos > sproutpos. -/
theorem C9_counterexample :
    ({Ppu.base with x := 0, scanline := 10, sproutpos := 1, sprrenpos := 1, dispctrl := 0x10}).sprrenpos ≤
      ({Ppu.base with x := 0, scanline := 10, sproutpos := 1, sprrenpos := 1, dispctrl := 0x10}).sproutpos ∧
    ({Ppu.base with x := 0, scanline := 10, sproutpos := 1, sprrenpos := 1, dispctrl := 0x10}).sproutpos ≤ 8 ∧
    ({Ppu.base with x := 0, scanline := 10, sproutpos := 1, sprrenpos := 1, dispctrl := 0x10}).sprinpos ≤ 64 ∧
    ¬ ((({Ppu.base with x := 0, scanline := 10, sproutpos := 1, sprrenpos := 1, dispctrl := 0x10}).rendering_tick).sprrenpos ≤
        (({Ppu.base with x := 0, scanline := 10, sproutpos := 1, sprrenpos := 1, dispctrl := 0x10}).rendering_tick).sproutpos) := by
  decide

/-- Concrete instantiation of `C9_counter_bounds` at the base state. -/
theorem C9_witness :
    Ppu.base.sproutpos ≤ 8 ∧ Ppu.base.sprinpos ≤ 64 ∧ Ppu.base.sprrenpos ≤ 8 ∧
    (((Ppu.base.rendering_tick).sproutpos ≤ 8 ∧ (Ppu.base.rendering_tick).sprinpos ≤ 64 ∧
      (Ppu.base.rendering_tick).sprrenpos ≤ 8) ∧
    ((Ppu.base.beatNTSC).sproutpos ≤ 8 ∧ (Ppu.base.beatNTSC).sprinpos ≤ 64 ∧
      (Ppu.base.beatNTSC).sprrenpos ≤ 8)) := by
  refine ⟨by decide, by decide, by decide, ?_⟩
  exact C9_counter_bounds Ppu.base (by decide) (by decide) (by decide)

/-- C10: writing any byte to the read-only status port 2 changes nothing
but the open-bus latch (set to the byte) and its decay timer (rearmed):
every other field of the PPU state is unchanged. -/
theorem C10_write_status_port (s : Ppu) (address data : Nat) (h : address % 8 = 2) :
    (s.Write address data).open_bus_ = data % 256 ∧
    (s.Write address data).open_bus_decay_timer = 77777 ∧
    (s.Write address data).sysctrl = s.sysctrl ∧
    (s.Write address data).dispctrl = s.dispctrl ∧
    (s.Write address data).SPoverflow = s.SPoverflow ∧
    (s.Write address data).SP0hit = s.SP0hit ∧
    (s.Write address data).InVBlank = s.InVBlank ∧
    (s.Write address data).OAMaddr = s.OAMaddr ∧
    (s.Write address data).scroll = s.scroll ∧
    (s.Write address data).vaddr = s.vaddr ∧
    (s.Write address data).xfine = s.xfine ∧
    (s.Write address data).offset_toggle_ = s.offset_toggle_ ∧
    (s.Write address data).read_buffer = s.read_buffer ∧
    (s.Write address data).VBlankState = s.VBlankState ∧
    (s.Write address data).OAM = s.OAM ∧
    (s.Write address data).OAM2 = s.OAM2 ∧
    (s.Write address data).OAM3 = s.OAM3 ∧
    (s.Write address data).sprinpos = s.sprinpos ∧
    (s.Write address data).sproutpos = s.sproutpos ∧
    (s.Write address data).sprrenpos = s.sprrenpos ∧
    (s.Write address data).sprtmp = s.sprtmp ∧
    (s.Write address data).scanline = s.scanline ∧
    (s.Write address data).x = s.x ∧
    (s.Write address data).scanline_end = s.scanline_end ∧
    (s.Write address data).cycle_counter = s.cycle_counter ∧
    (s.Write address data).even_odd_toggle = s.even_odd_toggle ∧
    (s.Write address data).cycles = s.cycles ∧
    (s.Write address data).mode_ = s.mode_ ∧
    (s.Write address data).palette = s.palette ∧
    (s.Write address data).chr = s.chr ∧
    (s.Write address data).nta = s.nta ∧
    (s.Write address data).nmi = s.nmi ∧
    (s.Write address data).frame_buffer = s.frame_buffer ∧
    (s.Write address data).pat_addr = s.pat_addr ∧
    (s.Write address data).ioaddr = s.ioaddr ∧
    (s.Write address data).tilepat = s.tilepat ∧
    (s.Write address data).tileattr = s.tileattr ∧
    (s.Write address data).bg_shift_pat = s.bg_shift_pat ∧
    (s.Write address data).bg_shift_attr = s.bg_shift_attr := by
  simp only [Ppu.Write, Ppu.RefreshOpenBus, h]
  norm_num

/-- Concrete instantiation of `C10_write_status_port` at byte 171. -/
theorem C10_witness :
    (2 : Nat) % 8 = 2 ∧
    (Ppu.base.Write 2 171).open_bus_ = 171 % 256 ∧
    (Ppu.base.Write 2 171).open_bus_decay_timer = 77777 ∧
    (Ppu.base.Write 2 171).sysctrl = Ppu.base.sysctrl ∧
    (Ppu.base.Write 2 171).dispctrl = Ppu.base.dispctrl ∧
    (Ppu.base.Write 2 171).SPoverflow = Ppu.base.SPoverflow ∧
    (Ppu.base.Write 2 171).SP0hit = Ppu.base.SP0hit ∧
    (Ppu.base.Write 2 171).InVBlank = Ppu.base.InVBlank ∧
    (Ppu.base.Write 2 171).OAMaddr = Ppu.base.OAMaddr ∧
    (Ppu.base.Write 2 171).scroll = Ppu.base.scroll ∧
    (Ppu.base.Write 2 171).vaddr = Ppu.base.vaddr ∧
    (Ppu.base.Write 2 171).xfine = Ppu.base.xfine ∧
    (Ppu.base.Write 2 171).offset_toggle_ = Ppu.base.offset_toggle_ ∧
    (Ppu.base.Write 2 171).read_buffer = Ppu.base.read_buffer ∧
    (Ppu.base.Write 2 171).VBlankState = Ppu.base.VBlankState ∧
    (Ppu.base.Write 2 171).OAM = Ppu.base.OAM ∧
    (Ppu.base.Write 2 171).OAM2 = Ppu.base.OAM2 ∧
    (Ppu.base.Write 2 171).OAM3 = Ppu.base.OAM3 ∧
    (Ppu.base.Write 2 171).sprinpos = Ppu.base.sprinpos ∧
    (Ppu.base.Write 2 171).sproutpos = Ppu.base.sproutpos ∧
    (Ppu.base.Write 2 171).sprrenpos = Ppu.base.sprrenpos ∧
    (Ppu.base.Write 2 171).sprtmp = Ppu.base.sprtmp ∧
    (Ppu.base.Write 2 171).scanline = Ppu.base.scanline ∧
    (Ppu.base.Write 2 171).x = Ppu.base.x ∧
    (Ppu.base.Write 2 171).scanline_end = Ppu.base.scanline_end ∧
    (Ppu.base.Write 2 171).cycle_counter = Ppu.base.cycle_counter ∧
    (Ppu.base.Write 2 171).even_odd_toggle = Ppu.base.even_odd_toggle ∧
    (Ppu.base.Write 2 171).cycles = Ppu.base.cycles ∧
    (Ppu.base.Write 2 171).mode_ = Ppu.base.mode_ ∧
    (Ppu.base.Write 2 171).palette = Ppu.base.palette ∧
    (Ppu.base.Write 2 171).chr = Ppu.base.chr ∧
    (Ppu.base.Write 2 171).nta = Ppu.base.nta ∧
    (Ppu.base.Write 2 171).nmi = Ppu.base.nmi ∧
    (Ppu.base.Write 2 171).frame_buffer = Ppu.base.frame_buffer ∧
    (Ppu.base.Write 2 171).pat_addr = Ppu.base.pat_addr ∧
    (Ppu.base.Write 2 171).ioaddr = Ppu.base.ioaddr ∧
    (Ppu.base.Write 2 171).tilepat = Ppu.base.tilepat ∧
    (Ppu.base.Write 2 171).tileattr = Ppu.base.tileattr ∧
    (Ppu.base.Write 2 171).bg_shift_pat = Ppu.base.bg_shift_pat ∧
    (Ppu.base.Write 2 171).bg_shift_attr = Ppu.base.bg_shift_attr := by
  refine ⟨by decide, ?_⟩
  exact C10_write_status_port Ppu.base 2 171 (by decide)
